import Mathlib

/-!
Verification development for the backend connection / protocol-correlation
core of the AI-agent repository: the `MCPProtocolHandler` correlation layer
(`src/backend/mcp_protocol.py`), the connection registry
(`src/backend/connection_store.py`), and the session-initialization and
chat-orchestration endpoints (`src/backend/main.py`).

The Python code is shallowly embedded: Python dicts become association
lists over `String` keys, `asyncio.Future` slots become an explicit
`FutState`, exceptions become an `Exc` inductive rendered to strings the
way Python's `str(e)` renders them, and the external collaborators (the
LLM decision function, the websocket transport, remote tool servers) are
oracles whose outcomes are passed in as parameters.
-/

/-- A minimal JSON value type for message payloads (ids are kept as
`String` fields separately, matching the uuid string ids the code uses). -/
inductive JVal where
  | null : JVal
  | bool : Bool → JVal
  | num : Int → JVal
  | str : String → JVal
  | arr : List JVal → JVal
  | obj : List (String × JVal) → JVal

/-- Dict lookup on an association list: the binding of the first matching
key, mirroring Python `d[k]` / `k in d`. -/
def alookup {α : Type} : List (String × α) → String → Option α
  | [], _ => none
  | (k, v) :: rest, k' => if k' = k then some v else alookup rest k'

/-- Removal of every binding of a key, mirroring Python `del d[k]`
(a no-op when the key is absent, which the code only reaches guarded). -/
def aerase {α : Type} : List (String × α) → String → List (String × α)
  | [], _ => []
  | p :: rest, k => if p.1 = k then aerase rest k else p :: aerase rest k

/-- Dict assignment `d[k] = v`: replaces any existing binding of `k`. -/
def aset {α : Type} (l : List (String × α)) (k : String) (v : α) : List (String × α) :=
  (k, v) :: aerase l k

theorem alookup_aerase_self {α : Type} (l : List (String × α)) (k : String) :
    alookup (aerase l k) k = none := by
  induction l with
  | nil => rfl
  | cons p rest ih =>
    by_cases h : p.1 = k
    · simpa [aerase, h] using ih
    · simp [aerase, h, alookup, Ne.symm h, ih]

theorem alookup_aerase_ne {α : Type} (l : List (String × α)) (k k' : String)
    (h : k' ≠ k) : alookup (aerase l k) k' = alookup l k' := by
  induction l with
  | nil => rfl
  | cons p rest ih =>
    by_cases hp : p.1 = k
    · have hk : k' ≠ p.1 := fun hk => h (hk.trans hp)
      simp [aerase, hp, alookup, hk, ih, h]
    · by_cases hk : k' = p.1
      · simp [aerase, hp, alookup, hk]
      · simp [aerase, hp, alookup, hk, ih]

theorem alookup_aset_self {α : Type} (l : List (String × α)) (k : String) (v : α) :
    alookup (aset l k v) k = some v := by
  simp [aset, alookup]

theorem alookup_aset_ne {α : Type} (l : List (String × α)) (k k' : String) (v : α)
    (h : k' ≠ k) : alookup (aset l k v) k' = alookup l k' := by
  simp [aset, alookup, h, alookup_aerase_ne l k k' h]

/-- Dict field lookup with default, mirroring Python `obj.get(key, dflt)`
on a JSON object (the code only calls `.get` on dict payloads). -/
def jget (v : JVal) (key : String) (dflt : JVal) : JVal :=
  match v with
  | .obj fs => (alookup fs key).getD dflt
  | _ => dflt

/-- The exception values the embedded code raises, one constructor per
`raise`/failure site. -/
inductive Exc where
  | mcpError : String → Exc
  | timeout : String → Exc
  | connectionNotFound : Exc
  | toolExecutionFailed : Exc → Exc
  | keyError : String → Exc

/-- Python `str(e)` for the exceptions above, matching the f-strings at
each raise site of the source. -/
def excStr : Exc → String
  | .mcpError d => "MCP Error: " ++ d
  | .timeout m => "MCP request " ++ m ++ " timed out"
  | .connectionNotFound => "MCP connection not found"
  | .toolExecutionFailed e => "Tool execution failed: " ++ excStr e
  | .keyError k => "KeyError: " ++ k

/-- The state of one `asyncio.Future` result slot of a pending request:
still pending, resolved with a payload (`set_result`), or rejected with the
rendered error detail (`set_exception(Exception(f"MCP Error: ..."))`). -/
inductive FutState where
  | pending : FutState
  | resolvedOk : JVal → FutState
  | resolvedErr : String → FutState

/-- The `MCPProtocolHandler.pending_requests` dict:
request id to future slot. -/
def HState := List (String × FutState)

/-- An inbound wire message as `handle_response` inspects it: the three
fields the code reads (`id`, `error`, `result`), each optional.  The
`error` field carries the detail already rendered to the string Python
interpolates into `f"MCP Error: \x7bmessage['error']\x7d"`. -/
structure Message where
  id : Option String
  error : Option String
  result : Option JVal

/-- What one `handle_response` call did: nothing (id absent, falsy, or
unknown), resolved / rejected the matching future, or hit an
already-completed future (where `Future.set_result` / `set_exception`
raise `InvalidStateError`). -/
inductive HandleOutcome where
  | discarded : HandleOutcome
  | resolved : HandleOutcome
  | rejected : HandleOutcome
  | invalidState : HandleOutcome

/-- `MCPProtocolHandler.handle_response` (mcp_protocol.py lines 39-47):
`request_id = message.get("id")`; when `request_id` is truthy and present
in `pending_requests`, reject the future with the rendered error if the
message carries an `error` key, otherwise resolve it with
`message.get("result", \x7b\x7d)`.  The entry itself is NOT removed here. -/
def handle_response (st : HState) (m : Message) : HandleOutcome × HState :=
  match m.id with
  | none => (.discarded, st)
  | some rid =>
    if rid = "" then (.discarded, st)
    else
      match alookup st rid with
      | none => (.discarded, st)
      | some .pending =>
        match m.error with
        | some d => (.rejected, aset st rid (.resolvedErr d))
        | none => (.resolved, aset st rid (.resolvedOk (m.result.getD (JVal.obj []))))
      | some _ => (.invalidState, st)

/-- The registration step of `MCPProtocolHandler.send_request`
(mcp_protocol.py lines 12-26): a fresh uuid id is generated, a new
`asyncio.Future` is stored under it in `pending_requests`, and the
envelope is written to the websocket (the write itself is transport I/O,
outside the state). -/
def send_issue (st : HState) (rid : String) : HState :=
  aset st rid .pending

/-- The resumption of a suspended `send_request` once its future has
completed (mcp_protocol.py lines 29-31 and the `finally` at 35-37):
defined (`some`) only when the future is completed; returns the payload or
raises the stored `MCP Error`, and the `finally` block deletes the entry. -/
def send_resume (st : HState) (rid : String) : Option (Except Exc JVal × HState) :=
  match alookup st rid with
  | some (.resolvedOk v) => some (.ok v, aerase st rid)
  | some (.resolvedErr d) => some (.error (.mcpError d), aerase st rid)
  | _ => none

/-- The timeout branch of `send_request` (mcp_protocol.py lines 32-34):
`asyncio.TimeoutError` is caught, the entry is deleted, and
`Exception(f"MCP request \x7bmethod\x7d timed out")` is raised; the
`finally` block then finds the id absent and does nothing. -/
def send_timeout (st : HState) (rid : String) (method : String) :
    Except Exc JVal × HState :=
  (.error (.timeout method), aerase st rid)

/-- The future slot `handle_response` leaves behind for a matched pending
request, as a function of the message: rejected with the error detail when
an `error` key is present, else resolved with `result` (default the empty
object). -/
def respSlot (m : Message) : FutState :=
  match m.error with
  | some d => .resolvedErr d
  | none => .resolvedOk (m.result.getD (JVal.obj []))

/-- The value the resumed `send_request` produces from a completed slot:
the payload on success, the `MCP Error` exception on rejection. -/
def respOutcome (m : Message) : Except Exc JVal :=
  match m.error with
  | some d => .error (.mcpError d)
  | none => .ok (m.result.getD (JVal.obj []))

/-- Which of the two matched branches `handle_response` takes for a
pending entry, as a function of the message's `error` key. -/
def respTag (m : Message) : HandleOutcome :=
  match m.error with
  | some _ => .rejected
  | none => .resolved

/-- A response message carrying a correlation id and a success result, as
a remote peer would send it. -/
def respMsg (rid : String) (v : JVal) : Message :=
  { id := some rid, error := none, result := some v }

/-- One entry of `active_connections` (connection_store.py lines 7-12):
the dataclass `MCPConnection`.  The websocket handle is opaque, kept as a
numeric token. -/
structure MCPConnection where
  websocket : Nat
  user_id : String
  available_tools : JVal
  session_initialized : Bool

/-- The `active_connections` dict: user id to connection. -/
def Store := List (String × MCPConnection)

/-- `add_connection` (connection_store.py lines 17-23): store a fresh
entry with an empty tool list and `session_initialized=False`, overwriting
any previous entry for the same user id. -/
def add_connection (store : Store) (uid : String) (ws : Nat) : Store :=
  aset store uid
    { websocket := ws, user_id := uid, available_tools := .arr [],
      session_initialized := false }

/-- `get_connection` (connection_store.py lines 25-26):
`active_connections.get(user_id)`. -/
def get_connection (store : Store) (uid : String) : Option MCPConnection :=
  alookup store uid

/-- `remove_connection` (connection_store.py lines 28-30): delete the
entry if present, no-op otherwise. -/
def remove_connection (store : Store) (uid : String) : Store :=
  aerase store uid

/-- `update_tools` (connection_store.py lines 32-34): replace the
`available_tools` field of an existing entry; no-op if the id is absent. -/
def update_tools (store : Store) (uid : String) (tools : JVal) : Store :=
  match alookup store uid with
  | none => store
  | some c => aset store uid { c with available_tools := tools }

/-- `mark_initialized` (connection_store.py lines 36-38): set the
`session_initialized` flag of an existing entry; no-op if absent. -/
def mark_initialized (store : Store) (uid : String) : Store :=
  match alookup store uid with
  | none => store
  | some c => aset store uid { c with session_initialized := true }

/-- The `except WebSocketDisconnect` handler of `websocket_endpoint`
(main.py lines 39-41): the only effect is `remove_connection(user_id)`.
The global handler's `pending_requests` dict is not touched — no code in
the repository rejects or removes a pending request on disconnect, and the
dict is keyed only by request id, carrying no link to the connection. -/
def on_disconnect (store : Store) (h : HState) (uid : String) : Store × HState :=
  (remove_connection store uid, h)

/-- `initialize_mcp_session` (main.py lines 43-79).  The two correlated
`send_request` calls go to the remote peer, so their outcomes are oracles
`initR` (for `initialize`) and `toolsR` (for `tools/list`).  The `try`
swallows any exception, leaving the store untouched; on the success path
`tools = tools_response.get("tools", [])` is stored via `update_tools`
and then `mark_initialized` runs. -/
def initialize_mcp_session (store : Store) (uid : String)
    (initR : Except Exc JVal) (toolsR : Except Exc JVal) : Store :=
  match get_connection store uid with
  | none => store
  | some _ =>
    match initR with
    | .error _ => store
    | .ok _ =>
      match toolsR with
      | .error _ => store
      | .ok tr =>
        mark_initialized (update_tools store uid (jget tr "tools" (JVal.arr []))) uid

/-- One requested tool invocation from the decision function's
`tool_calls` list (`tool_name`, `tool_args`, and `reasoning`, the latter
read with `.get("reasoning", "")`). -/
structure ToolCall where
  tool_name : String
  tool_args : JVal
  reasoning : String

/-- The decision function's reply as `get_llm_response_with_tools` shapes
it (llm_client.py lines 70-82): either `type:"tool_use"` with a
`tool_calls` list, or `type:"text"` with content. -/
inductive LLMResp where
  | text : String → LLMResp
  | toolUse : List ToolCall → LLMResp

/-- One element of the `tool_results` list `handle_chat` accumulates
(main.py lines 123-133): the tool name, the result payload — or the string
`"Error: " ++ str(e)` when the call raised — and the carried reasoning. -/
structure ToolResult where
  tool_name : String
  result : JVal
  reasoning : String

/-- The JSON body `handle_chat` returns: the direct-answer branch fills
only `response` and sets `tools_used` to Python `None`; the tool branch
fills all four fields. -/
structure ChatOut where
  response : String
  tools_used : Option (List String)
  tool_results : Option (List ToolResult)
  tool_count : Option Nat

/-- The failure modes of `handle_chat`: the 404 `HTTPException` for a
missing connection, the 400 for an uninitialized session, the 500 wrapping
a decision-function failure, and an exception escaping the endpoint
uncaught (the second decision call is outside any `try`). -/
inductive ChatErr where
  | notFound : ChatErr
  | notReady : ChatErr
  | llmFailed : Exc → ChatErr
  | uncaught : Exc → ChatErr

/-- `execute_tool` (main.py lines 156-175): look the connection up afresh;
raise `Exception("MCP connection not found")` if absent (outside the
`try`, so unwrapped); otherwise issue `send_request("tools/call", ...)` —
outcome the oracle `sendR` — returning `result.get("content", [])` on
success and wrapping any exception as `Tool execution failed`.  The `Bool`
records whether a correlated request was actually issued. -/
def execute_tool (store : Store) (uid : String) (tool_name : String)
    (tool_args : JVal) (sendR : Except Exc JVal) : Except Exc JVal × Bool :=
  match get_connection store uid with
  | none => (.error .connectionNotFound, false)
  | some _ =>
    match sendR with
    | .ok r => (.ok (jget r "content" (JVal.arr [])), true)
    | .error e => (.error (.toolExecutionFailed e), true)

/-- The sequential tool-execution loop of `handle_chat` (main.py lines
116-133).  Each iteration calls `execute_tool` against the registry as it
stands at that moment (`storeAt i` — chat tasks run concurrently with
connect/disconnect events) with that call's send outcome (`sendAt i`); an
exception is caught and recorded as the result string
`"Error: " ++ str(e)`.  Also counts the correlated requests issued. -/
def run_tools (uid : String) (storeAt : Nat → Store)
    (sendAt : Nat → Except Exc JVal) :
    List ToolCall → Nat → List ToolResult × Nat
  | [], _ => ([], 0)
  | c :: rest, i =>
    let step := execute_tool (storeAt i) uid c.tool_name c.tool_args (sendAt i)
    let r : ToolResult :=
      match step.1 with
      | .ok v => { tool_name := c.tool_name, result := v, reasoning := c.reasoning }
      | .error e =>
        { tool_name := c.tool_name, result := .str ("Error: " ++ excStr e),
          reasoning := c.reasoning }
    let tail := run_tools uid storeAt sendAt rest (i + 1)
    (r :: tail.1, (if step.2 then 1 else 0) + tail.2)

/-- `handle_chat` (main.py lines 87-154).  The decision-function calls are
oracles: `llm1` is the first call's outcome, `llm2` maps the collected
tool results to the second call's outcome.  Returns the endpoint's result
(body or error) together with the number of correlated requests issued.
The direct-answer branch returns `tools_used = none` (Python `None`); the
tool branch runs `run_tools` and builds the four-field body, reading
`final_response["content"]` — a `KeyError` if the second decision reply is
itself a `tool_use`. -/
def handle_chat (store : Store) (uid : String) (llm1 : Except Exc LLMResp)
    (storeAt : Nat → Store) (sendAt : Nat → Except Exc JVal)
    (llm2 : List ToolResult → Except Exc LLMResp) :
    Except ChatErr ChatOut × Nat :=
  match get_connection store uid with
  | none => (.error .notFound, 0)
  | some conn =>
    if conn.session_initialized then
      match llm1 with
      | .error e => (.error (.llmFailed e), 0)
      | .ok (.toolUse calls) =>
        let r := run_tools uid storeAt sendAt calls 0
        match llm2 r.1 with
        | .ok (.text c2) =>
          (.ok { response := c2, tools_used := some (r.1.map ToolResult.tool_name),
                 tool_results := some r.1, tool_count := some r.1.length }, r.2)
        | .ok (.toolUse _) => (.error (.uncaught (.keyError "content")), r.2)
        | .error e => (.error (.uncaught e), r.2)
      | .ok (.text content) =>
        (.ok { response := content, tools_used := none, tool_results := none,
               tool_count := none }, 0)
    else (.error .notReady, 0)

/-! ## Claim theorems -/

/-- C1 (code evaluation at the failing input): a store holds connection
`u` and the handler holds one pending request `r1` attached to it; the
transport closes.  The disconnect handler removes the connection from the
registry but the pending request is NOT rejected: it is still pending
afterwards, left to reach its 30-time-unit timeout, contradicting the
claim that every attached pending request is rejected immediately with a
disconnect-specific error. -/
theorem C1_pending_survives_disconnect :
    (on_disconnect
        [("u", { websocket := 0, user_id := "u", available_tools := JVal.arr [],
                 session_initialized := true })]
        [("r1", FutState.pending)] "u").2 = [("r1", FutState.pending)] ∧
    alookup (on_disconnect
        [("u", { websocket := 0, user_id := "u", available_tools := JVal.arr [],
                 session_initialized := true })]
        [("r1", FutState.pending)] "u").2 "r1" = some FutState.pending ∧
    get_connection (on_disconnect
        [("u", { websocket := 0, user_id := "u", available_tools := JVal.arr [],
                 session_initialized := true })]
        [("r1", FutState.pending)] "u").1 "u" = none :=
  ⟨rfl, rfl, rfl⟩

/-- C5: a send whose matching response does not arrive is settled by the
timeout branch: it fails with the `MCP request ... timed out` error
(`RequestTimeout`), and afterwards no entry for its correlation id remains
in the pending set. -/
theorem C5_timeout_rejects_and_clears (st : HState) (rid method : String) :
    (send_timeout (send_issue st rid) rid method).1
      = Except.error (Exc.timeout method) ∧
    alookup (send_timeout (send_issue st rid) rid method).2 rid = none :=
  ⟨rfl, alookup_aerase_self _ _⟩

/-- C9: a response whose id matches a pending request and which carries no
error field resolves that request, and the resumed send returns the
message's `result` field — defaulting to the empty object when the field
is absent — while the `finally` block removes the entry. -/
theorem C9_result_payload (st : HState) (rid : String) (m : Message)
    (hid : m.id = some rid) (hrid : rid ≠ "")
    (hpend : alookup st rid = some FutState.pending) (herr : m.error = none) :
    send_resume (handle_response st m).2 rid
      = some (Except.ok (m.result.getD (JVal.obj [])),
              aerase (handle_response st m).2 rid) := by
  have e : handle_response st m
      = (.resolved, aset st rid (.resolvedOk (m.result.getD (JVal.obj [])))) := by
    simp [handle_response, hid, hrid, hpend, herr]
  rw [e]
  simp [send_resume, alookup_aset_self]

/-- C9 witness: a pending request `r` receives a response with no error
and no result field; the resumed send returns the empty object. -/
theorem C9_result_payload_witness :
    Message.id { id := some "r", error := none, result := none } = some "r" ∧
    ("r" : String) ≠ "" ∧
    alookup [("r", FutState.pending)] "r" = some FutState.pending ∧
    Message.error { id := some "r", error := none, result := none } = none ∧
    send_resume (handle_response [("r", FutState.pending)]
        { id := some "r", error := none, result := none }).2 "r"
      = some (Except.ok (JVal.obj []),
              aerase (handle_response [("r", FutState.pending)]
                { id := some "r", error := none, result := none }).2 "r") :=
  ⟨rfl, by decide, rfl, rfl,
    C9_result_payload [("r", FutState.pending)] "r"
      { id := some "r", error := none, result := none } rfl (by decide) rfl rfl⟩

/-- C4: two requests `a` and `b` are issued concurrently on the same
connection; the responses arrive out of order (`b`'s first, then `a`'s).
Each suspended send nonetheless resumes with exactly the result carried by
the response bearing its own correlation id: `a` gets `ra`, `b` gets
`rb`. -/
theorem C4_out_of_order_matching (st : HState) (a b : String) (ra rb : JVal)
    (hab : a ≠ b) (ha : a ≠ "") (hb : b ≠ "") :
    ∃ stA stB,
      send_resume
        ((handle_response
          ((handle_response (send_issue (send_issue st a) b) (respMsg b rb)).2)
          (respMsg a ra)).2) a = some (Except.ok ra, stA) ∧
      send_resume stA b = some (Except.ok rb, stB) := by
  have hba : b ≠ a := Ne.symm hab
  have h1b : alookup (send_issue (send_issue st a) b) b = some FutState.pending :=
    alookup_aset_self _ _ _
  have e2 : handle_response (send_issue (send_issue st a) b) (respMsg b rb)
      = (.resolved, aset (send_issue (send_issue st a) b) b (.resolvedOk rb)) := by
    simp [handle_response, respMsg, hb, h1b]
  rw [e2]
  have h2a : alookup (aset (send_issue (send_issue st a) b) b (.resolvedOk rb)) a
      = some FutState.pending := by
    rw [alookup_aset_ne _ _ _ _ hab]
    show alookup (aset (aset st a FutState.pending) b FutState.pending) a
      = some FutState.pending
    rw [alookup_aset_ne _ _ _ _ hab, alookup_aset_self]
  have e3 : handle_response (aset (send_issue (send_issue st a) b) b (.resolvedOk rb))
        (respMsg a ra)
      = (.resolved, aset (aset (send_issue (send_issue st a) b) b (.resolvedOk rb)) a
          (.resolvedOk ra)) := by
    simp [handle_response, respMsg, ha, h2a]
  rw [e3]
  have h3a : alookup (aset (aset (send_issue (send_issue st a) b) b
      (.resolvedOk rb)) a (.resolvedOk ra)) a = some (FutState.resolvedOk ra) :=
    alookup_aset_self _ _ _
  have h4b : alookup (aerase (aset (aset (send_issue (send_issue st a) b) b
      (.resolvedOk rb)) a (.resolvedOk ra)) a) b = some (FutState.resolvedOk rb) := by
    rw [alookup_aerase_ne _ _ _ hba, alookup_aset_ne _ _ _ _ hba,
      alookup_aset_self]
  refine ⟨aerase (aset (aset (send_issue (send_issue st a) b) b (.resolvedOk rb)) a
      (.resolvedOk ra)) a,
    aerase (aerase (aset (aset (send_issue (send_issue st a) b) b (.resolvedOk rb)) a
      (.resolvedOk ra)) a) b, ?_, ?_⟩
  · simp [send_resume, h3a]
  · simp [send_resume, h4b]

/-- C4 witness: concrete ids `a`/`b` with distinct payloads, responses
delivered in reverse order; each resumes with its own payload. -/
theorem C4_out_of_order_matching_witness :
    ("a" : String) ≠ "b" ∧ ("a" : String) ≠ "" ∧ ("b" : String) ≠ "" ∧
    (∃ stA stB,
      send_resume
        ((handle_response
          ((handle_response (send_issue (send_issue [] "a") "b")
            (respMsg "b" (JVal.str "resB"))).2)
          (respMsg "a" (JVal.str "resA"))).2) "a"
        = some (Except.ok (JVal.str "resA"), stA) ∧
      send_resume stA "b" = some (Except.ok (JVal.str "resB"), stB)) :=
  ⟨by decide, by decide, by decide,
    C4_out_of_order_matching [] "a" "b" (JVal.str "resA") (JVal.str "resB")
      (by decide) (by decide) (by decide)⟩

/-- C2 counterexample: the pending set holds request `a`; a response for
`a` with a result and no error arrives.  `handle_response` resolves the
matching future, but the entry is NOT removed from the pending set — it is
still present (now completed), contradicting the claim that
`handleResponse` "removes that entry from the pending set" (removal
actually happens later, in the resumed `send_request`'s `finally`
block). -/
theorem C2_entry_not_removed :
    (handle_response [("a", FutState.pending)]
        { id := some "a", error := none, result := some (JVal.str "v") }).1
      = HandleOutcome.resolved ∧
    alookup (handle_response [("a", FutState.pending)]
        { id := some "a", error := none, result := some (JVal.str "v") }).2 "a"
      = some (FutState.resolvedOk (JVal.str "v")) :=
  ⟨rfl, rfl⟩

/-- C2 (amended): `handle_response` resolves or rejects exactly the
pending request whose id equals the message's id, touching no other entry,
but does not itself remove the entry; the entry is removed when the
suspended send resumes (its `finally` block), after which no binding for
the id remains.  A message whose id is absent altogether, or matches no
tracked request, is silently discarded and changes nothing. -/
theorem C2_match_resolve_then_remove (st : HState) (m : Message) :
    (∀ rid, m.id = some rid → rid ≠ "" → alookup st rid = some FutState.pending →
      handle_response st m = (respTag m, aset st rid (respSlot m)) ∧
      (∀ k, k ≠ rid → alookup (aset st rid (respSlot m)) k = alookup st k) ∧
      send_resume (aset st rid (respSlot m)) rid
        = some (respOutcome m, aerase (aset st rid (respSlot m)) rid) ∧
      alookup (aerase (aset st rid (respSlot m)) rid) rid = none) ∧
    (m.id = none → handle_response st m = (.discarded, st)) ∧
    (∀ rid, m.id = some rid → alookup st rid = none →
      handle_response st m = (.discarded, st)) := by
  refine ⟨?_, ?_, ?_⟩
  · intro rid hid hrid hpend
    refine ⟨?_, ?_, ?_, alookup_aerase_self _ _⟩
    · cases herr : m.error with
      | none => simp [handle_response, hid, hrid, hpend, herr, respTag, respSlot]
      | some d => simp [handle_response, hid, hrid, hpend, herr, respTag, respSlot]
    · intro k hk
      exact alookup_aset_ne st rid k (respSlot m) hk
    · cases herr : m.error with
      | none =>
        simp [send_resume, alookup_aset_self, respSlot, respOutcome, herr]
      | some d =>
        simp [send_resume, alookup_aset_self, respSlot, respOutcome, herr]
  · intro hid
    simp [handle_response, hid]
  · intro rid hid hnone
    by_cases hrid : rid = ""
    · simp [handle_response, hid, hrid]
    · simp [handle_response, hid, hrid, hnone]

/-- C2 witness: both branches of the amended statement at concrete inputs:
a matching response for pending id `a` resolves it and the resumed send
removes it; a response with unknown id `zz` is discarded. -/
theorem C2_match_resolve_then_remove_witness :
    (Message.id { id := some "a", error := none, result := some (JVal.str "v") }
        = some "a" ∧
      ("a" : String) ≠ "" ∧
      alookup [("a", FutState.pending)] "a" = some FutState.pending ∧
      send_resume (aset [("a", FutState.pending)] "a"
          (respSlot { id := some "a", error := none, result := some (JVal.str "v") })) "a"
        = some (respOutcome { id := some "a", error := none, result := some (JVal.str "v") },
            aerase (aset [("a", FutState.pending)] "a"
              (respSlot { id := some "a", error := none,
                          result := some (JVal.str "v") })) "a")) ∧
    (Message.id { id := some "zz", error := none, result := none } = some "zz" ∧
      alookup [("a", FutState.pending)] "zz" = none ∧
      handle_response [("a", FutState.pending)]
          { id := some "zz", error := none, result := none }
        = (HandleOutcome.discarded, [("a", FutState.pending)])) :=
  ⟨⟨rfl, by decide, rfl,
      ((C2_match_resolve_then_remove [("a", FutState.pending)]
        { id := some "a", error := none, result := some (JVal.str "v") }).1
        "a" rfl (by decide) rfl).2.2.1⟩,
    ⟨rfl, rfl,
      (C2_match_resolve_then_remove [("a", FutState.pending)]
        { id := some "zz", error := none, result := none }).2.2 "zz" rfl rfl⟩⟩

/-- C3 counterexample: a ready connection and a decision reply
`needsTools:false, content:"hello"`.  `handle_chat` answers `"hello"`, but
the tool-usage field it returns is Python `None` (`tools_used = none`),
not the empty list `[]` the claim states. -/
theorem C3_tools_used_is_none :
    (handle_chat
        [("u", { websocket := 0, user_id := "u", available_tools := JVal.arr [],
                 session_initialized := true })] "u"
        (Except.ok (LLMResp.text "hello")) (fun _ => []) (fun _ => Except.ok JVal.null)
        (fun _ => Except.ok (LLMResp.text "z"))).1
      = Except.ok { response := "hello", tools_used := none, tool_results := none,
                    tool_count := none } ∧
    (none : Option (List String)) ≠ some [] :=
  ⟨rfl, by decide⟩

/-- C3 (amended): when the decision function returns a direct answer
(`needsTools:false` with content text), `chat` returns that text as the
answer with a `None` (absent) tool-usage field — not an empty list — and
issues zero correlated requests on the connection. -/
theorem C3_direct_answer (store : Store) (uid content : String)
    (conn : MCPConnection) (storeAt : Nat → Store)
    (sendAt : Nat → Except Exc JVal) (llm2 : List ToolResult → Except Exc LLMResp)
    (hconn : get_connection store uid = some conn)
    (hready : conn.session_initialized = true) :
    handle_chat store uid (Except.ok (LLMResp.text content)) storeAt sendAt llm2
      = (Except.ok { response := content, tools_used := none, tool_results := none,
                     tool_count := none }, 0) := by
  simp [handle_chat, hconn, hready]

/-- C3 witness: concrete ready connection, direct answer `"hello"`. -/
theorem C3_direct_answer_witness :
    get_connection
        [("u", { websocket := 0, user_id := "u", available_tools := JVal.arr [],
                 session_initialized := true })] "u"
      = some { websocket := 0, user_id := "u", available_tools := JVal.arr [],
               session_initialized := true } ∧
    MCPConnection.session_initialized
        { websocket := 0, user_id := "u", available_tools := JVal.arr [],
          session_initialized := true } = true ∧
    handle_chat
        [("u", { websocket := 0, user_id := "u", available_tools := JVal.arr [],
                 session_initialized := true })] "u"
        (Except.ok (LLMResp.text "hello")) (fun _ => []) (fun _ => Except.ok JVal.null)
        (fun _ => Except.ok (LLMResp.text "z"))
      = (Except.ok { response := "hello", tools_used := none, tool_results := none,
                     tool_count := none }, 0) :=
  ⟨rfl, rfl,
    C3_direct_answer _ "u" "hello" _ _ _ _ rfl rfl⟩

/-- C7: `chat` against an identity with no registry entry fails with the
404 `ConnectionNotFound` error, and against an entry whose handshake has
not completed fails with the 400 `SessionNotReady` error; in both cases
the outcome holds for every decision-function oracle (it is never
consulted) and zero correlated requests are issued. -/
theorem C7_precondition_failures (store : Store) (uid : String)
    (llm1 : Except Exc LLMResp) (storeAt : Nat → Store)
    (sendAt : Nat → Except Exc JVal) (llm2 : List ToolResult → Except Exc LLMResp) :
    (get_connection store uid = none →
      handle_chat store uid llm1 storeAt sendAt llm2
        = (Except.error ChatErr.notFound, 0)) ∧
    (∀ conn, get_connection store uid = some conn →
      conn.session_initialized = false →
      handle_chat store uid llm1 storeAt sendAt llm2
        = (Except.error ChatErr.notReady, 0)) := by
  constructor
  · intro hnone
    simp [handle_chat, hnone]
  · intro conn hconn hnr
    simp [handle_chat, hconn, hnr]

/-- C7 witness: the empty registry yields `ConnectionNotFound`; a registry
whose entry for `u` is not yet initialized yields `SessionNotReady`; both
with an arbitrary concrete decision oracle and zero requests issued. -/
theorem C7_precondition_failures_witness :
    (get_connection [] "u" = none ∧
      handle_chat [] "u" (Except.ok (LLMResp.text "x")) (fun _ => [])
          (fun _ => Except.ok JVal.null) (fun _ => Except.ok (LLMResp.text "y"))
        = (Except.error ChatErr.notFound, 0)) ∧
    (get_connection
        [("u", { websocket := 0, user_id := "u", available_tools := JVal.arr [],
                 session_initialized := false })] "u"
      = some { websocket := 0, user_id := "u", available_tools := JVal.arr [],
               session_initialized := false } ∧
      MCPConnection.session_initialized
        { websocket := 0, user_id := "u", available_tools := JVal.arr [],
          session_initialized := false } = false ∧
      handle_chat
          [("u", { websocket := 0, user_id := "u", available_tools := JVal.arr [],
                   session_initialized := false })] "u"
          (Except.ok (LLMResp.text "x")) (fun _ => [])
          (fun _ => Except.ok JVal.null) (fun _ => Except.ok (LLMResp.text "y"))
        = (Except.error ChatErr.notReady, 0)) :=
  ⟨⟨rfl,
      (C7_precondition_failures [] "u" (Except.ok (LLMResp.text "x")) (fun _ => [])
        (fun _ => Except.ok JVal.null)
        (fun _ => Except.ok (LLMResp.text "y"))).1 rfl⟩,
    ⟨rfl, rfl,
      (C7_precondition_failures
        [("u", { websocket := 0, user_id := "u", available_tools := JVal.arr [],
                 session_initialized := false })] "u"
        (Except.ok (LLMResp.text "x")) (fun _ => [])
        (fun _ => Except.ok JVal.null)
        (fun _ => Except.ok (LLMResp.text "y"))).2 _ rfl rfl⟩⟩

/-- C8: for a registered, not-yet-ready connection, if either handshake
step fails (`initialize` or `tools/list` raises), `initialize_mcp_session`
leaves the store untouched — a single abandoned attempt, no retry, ready
flag still false; when both steps succeed the entry gets the stored tool
catalog (`tools_response.get("tools", [])`) and only then the true ready
flag; conversely, a true ready flag after initialization entails both
steps succeeded. -/
theorem C8_handshake_gates_ready (store : Store) (uid : String)
    (conn0 : MCPConnection) (initR toolsR : Except Exc JVal)
    (hconn : get_connection store uid = some conn0)
    (h0 : conn0.session_initialized = false) :
    (∀ e, initR = Except.error e →
      initialize_mcp_session store uid initR toolsR = store) ∧
    (∀ e, toolsR = Except.error e →
      initialize_mcp_session store uid initR toolsR = store) ∧
    (∀ a tr, initR = Except.ok a → toolsR = Except.ok tr →
      get_connection (initialize_mcp_session store uid initR toolsR) uid
        = some { conn0 with
            available_tools := jget tr "tools" (JVal.arr []),
            session_initialized := true }) ∧
    (∀ conn1,
      get_connection (initialize_mcp_session store uid initR toolsR) uid = some conn1 →
      conn1.session_initialized = true →
      (∃ a, initR = Except.ok a) ∧ ∃ tr, toolsR = Except.ok tr) := by
  have hok : ∀ a tr, initR = Except.ok a → toolsR = Except.ok tr →
      get_connection (initialize_mcp_session store uid initR toolsR) uid
        = some { conn0 with
            available_tools := jget tr "tools" (JVal.arr []),
            session_initialized := true } := by
    intro a tr ha htr
    subst ha; subst htr
    have hl : alookup store uid = some conn0 := hconn
    simp only [initialize_mcp_session, get_connection, hconn, hl, update_tools,
      mark_initialized, alookup_aset_self]
  refine ⟨?_, ?_, hok, ?_⟩
  · intro e he
    subst he
    simp [initialize_mcp_session, hconn]
  · intro e he
    subst he
    cases initR with
    | error e2 => simp [initialize_mcp_session, hconn]
    | ok a => simp [initialize_mcp_session, hconn]
  · intro conn1 hc1 hr1
    cases hi : initR with
    | error e =>
      exfalso
      rw [hi] at hc1
      simp [initialize_mcp_session, hconn] at hc1
      rw [← hc1, h0] at hr1
      exact Bool.false_ne_true hr1
    | ok a =>
      cases ht : toolsR with
      | error e =>
        exfalso
        rw [hi, ht] at hc1
        simp [initialize_mcp_session, hconn] at hc1
        rw [← hc1, h0] at hr1
        exact Bool.false_ne_true hr1
      | ok tr => exact ⟨⟨a, rfl⟩, ⟨tr, rfl⟩⟩

/-- C8 witness: a not-ready connection `u`; a failed `tools/list` leaves
the store unchanged, while a successful pair stores the catalog and sets
the ready flag. -/
theorem C8_handshake_gates_ready_witness :
    get_connection
        [("u", { websocket := 0, user_id := "u", available_tools := JVal.arr [],
                 session_initialized := false })] "u"
      = some { websocket := 0, user_id := "u", available_tools := JVal.arr [],
               session_initialized := false } ∧
    MCPConnection.session_initialized
        { websocket := 0, user_id := "u", available_tools := JVal.arr [],
          session_initialized := false } = false ∧
    initialize_mcp_session
        [("u", { websocket := 0, user_id := "u", available_tools := JVal.arr [],
                 session_initialized := false })] "u"
        (Except.ok JVal.null) (Except.error (Exc.timeout "tools/list"))
      = [("u", { websocket := 0, user_id := "u", available_tools := JVal.arr [],
                 session_initialized := false })] ∧
    get_connection (initialize_mcp_session
        [("u", { websocket := 0, user_id := "u", available_tools := JVal.arr [],
                 session_initialized := false })] "u"
        (Except.ok JVal.null)
        (Except.ok (JVal.obj [("tools", JVal.arr [JVal.str "search"])]))) "u"
      = some { websocket := 0, user_id := "u",
               available_tools := JVal.arr [JVal.str "search"],
               session_initialized := true } :=
  ⟨rfl, rfl,
    (C8_handshake_gates_ready
      [("u", { websocket := 0, user_id := "u", available_tools := JVal.arr [],
               session_initialized := false })] "u"
      { websocket := 0, user_id := "u", available_tools := JVal.arr [],
        session_initialized := false } (Except.ok JVal.null)
      (Except.error (Exc.timeout "tools/list")) rfl rfl).2.1
      (Exc.timeout "tools/list") rfl,
    (C8_handshake_gates_ready
      [("u", { websocket := 0, user_id := "u", available_tools := JVal.arr [],
               session_initialized := false })] "u"
      { websocket := 0, user_id := "u", available_tools := JVal.arr [],
        session_initialized := false } (Except.ok JVal.null)
      (Except.ok (JVal.obj [("tools", JVal.arr [JVal.str "search"])])) rfl rfl).2.2.1
      JVal.null (JVal.obj [("tools", JVal.arr [JVal.str "search"])]) rfl rfl⟩

/-- C6: two tool calls are requested; the first's correlated request fails
(`e1`), the second's succeeds (`r2`).  The failure is captured as a Tool
Result whose `result` is the error string `"Error: Tool execution failed:
..."` instead of aborting the loop: `chat` returns both results in request
order, the first flagged as errored, and the final answer is the second
decision call's synthesis over exactly those two results. -/
theorem C6_partial_failure_tolerated (store : Store) (uid : String)
    (conn : MCPConnection) (c1 c2 : ToolCall) (e1 : Exc) (r2 : JVal) (ans : String)
    (sendAt : Nat → Except Exc JVal) (llm2 : List ToolResult → Except Exc LLMResp)
    (hconn : get_connection store uid = some conn)
    (hready : conn.session_initialized = true)
    (hs0 : sendAt 0 = Except.error e1) (hs1 : sendAt 1 = Except.ok r2)
    (hllm2 : llm2
      [{ tool_name := c1.tool_name,
         result := JVal.str ("Error: " ++ excStr (Exc.toolExecutionFailed e1)),
         reasoning := c1.reasoning },
       { tool_name := c2.tool_name, result := jget r2 "content" (JVal.arr []),
         reasoning := c2.reasoning }] = Except.ok (LLMResp.text ans)) :
    handle_chat store uid (Except.ok (LLMResp.toolUse [c1, c2]))
        (fun _ => store) sendAt llm2
      = (Except.ok
          { response := ans,
            tools_used := some [c1.tool_name, c2.tool_name],
            tool_results := some
              [{ tool_name := c1.tool_name,
                 result := JVal.str ("Error: " ++ excStr (Exc.toolExecutionFailed e1)),
                 reasoning := c1.reasoning },
               { tool_name := c2.tool_name, result := jget r2 "content" (JVal.arr []),
                 reasoning := c2.reasoning }],
            tool_count := some 2 }, 2) := by
  simp [handle_chat, hconn, hready, run_tools, execute_tool, hs0, hs1, hllm2]

/-- C6 witness: tools `t1` (whose request times out) and `t2` (which
succeeds); the returned body lists both results in order with the first
error-flagged, and the error string renders as the code's
`Error: Tool execution failed: ...` text. -/
theorem C6_partial_failure_tolerated_witness :
    get_connection
        [("u", { websocket := 0, user_id := "u", available_tools := JVal.arr [],
                 session_initialized := true })] "u"
      = some { websocket := 0, user_id := "u", available_tools := JVal.arr [],
               session_initialized := true } ∧
    excStr (Exc.toolExecutionFailed (Exc.timeout "tools/call"))
      = "Tool execution failed: MCP request tools/call timed out" ∧
    handle_chat
        [("u", { websocket := 0, user_id := "u", available_tools := JVal.arr [],
                 session_initialized := true })] "u"
        (Except.ok (LLMResp.toolUse
          [{ tool_name := "t1", tool_args := JVal.obj [], reasoning := "why1" },
           { tool_name := "t2", tool_args := JVal.obj [], reasoning := "why2" }]))
        (fun _ =>
          [("u", { websocket := 0, user_id := "u", available_tools := JVal.arr [],
                   session_initialized := true })])
        (fun i => if i = 0 then Except.error (Exc.timeout "tools/call")
          else Except.ok (JVal.obj [("content", JVal.arr [JVal.str "ok2"])]))
        (fun _ => Except.ok (LLMResp.text "final"))
      = (Except.ok
          { response := "final",
            tools_used := some ["t1", "t2"],
            tool_results := some
              [{ tool_name := "t1",
                 result := JVal.str ("Error: " ++
                   excStr (Exc.toolExecutionFailed (Exc.timeout "tools/call"))),
                 reasoning := "why1" },
               { tool_name := "t2",
                 result := jget (JVal.obj [("content", JVal.arr [JVal.str "ok2"])])
                   "content" (JVal.arr []),
                 reasoning := "why2" }],
            tool_count := some 2 }, 2) :=
  ⟨rfl, rfl,
    C6_partial_failure_tolerated
      [("u", { websocket := 0, user_id := "u", available_tools := JVal.arr [],
               session_initialized := true })] "u"
      { websocket := 0, user_id := "u", available_tools := JVal.arr [],
        session_initialized := true }
      { tool_name := "t1", tool_args := JVal.obj [], reasoning := "why1" }
      { tool_name := "t2", tool_args := JVal.obj [], reasoning := "why2" }
      (Exc.timeout "tools/call") (JVal.obj [("content", JVal.arr [JVal.str "ok2"])])
      "final"
      (fun i => if i = 0 then Except.error (Exc.timeout "tools/call")
        else Except.ok (JVal.obj [("content", JVal.arr [JVal.str "ok2"])]))
      (fun _ => Except.ok (LLMResp.text "final"))
      rfl rfl rfl rfl rfl⟩

/-- C10: each Execute-phase tool call looks the connection up afresh
(`storeAt i` is the registry as the i-th call observes it).  The
connection was present and ready at the chat's Start check but has been
unregistered by the time the first call runs: that call is captured as the
error-marked Tool Result `"Error: MCP connection not found"` instead of
aborting the chat; the second call (the connection having re-registered)
still runs, issuing the only correlated request, and the synthesis step
still produces the final answer from both results. -/
theorem C10_fresh_lookup_not_found_captured (store : Store) (uid : String)
    (conn conn1 : MCPConnection) (c1 c2 : ToolCall) (r2 : JVal) (ans : String)
    (storeAt : Nat → Store) (sendAt : Nat → Except Exc JVal)
    (llm2 : List ToolResult → Except Exc LLMResp)
    (hconn : get_connection store uid = some conn)
    (hready : conn.session_initialized = true)
    (h0 : get_connection (storeAt 0) uid = none)
    (hc1 : get_connection (storeAt 1) uid = some conn1)
    (hs1 : sendAt 1 = Except.ok r2)
    (hllm2 : llm2
      [{ tool_name := c1.tool_name,
         result := JVal.str ("Error: " ++ excStr Exc.connectionNotFound),
         reasoning := c1.reasoning },
       { tool_name := c2.tool_name, result := jget r2 "content" (JVal.arr []),
         reasoning := c2.reasoning }] = Except.ok (LLMResp.text ans)) :
    handle_chat store uid (Except.ok (LLMResp.toolUse [c1, c2])) storeAt sendAt llm2
      = (Except.ok
          { response := ans,
            tools_used := some [c1.tool_name, c2.tool_name],
            tool_results := some
              [{ tool_name := c1.tool_name,
                 result := JVal.str ("Error: " ++ excStr Exc.connectionNotFound),
                 reasoning := c1.reasoning },
               { tool_name := c2.tool_name, result := jget r2 "content" (JVal.arr []),
                 reasoning := c2.reasoning }],
            tool_count := some 2 }, 1) := by
  simp [handle_chat, hconn, hready, run_tools, execute_tool, h0, hc1, hs1, hllm2]

/-- C10 witness: connection `u` is ready at the Start check, absent from
the registry when call `t1` runs (captured as the
`Error: MCP connection not found` result), present again for `t2`; one
correlated request is issued and the synthesized answer is returned. -/
theorem C10_fresh_lookup_not_found_captured_witness :
    get_connection
        [("u", { websocket := 0, user_id := "u", available_tools := JVal.arr [],
                 session_initialized := true })] "u"
      = some { websocket := 0, user_id := "u", available_tools := JVal.arr [],
               session_initialized := true } ∧
    get_connection ([] : Store) "u" = none ∧
    ("Error: " ++ excStr Exc.connectionNotFound
      = "Error: MCP connection not found") ∧
    handle_chat
        [("u", { websocket := 0, user_id := "u", available_tools := JVal.arr [],
                 session_initialized := true })] "u"
        (Except.ok (LLMResp.toolUse
          [{ tool_name := "t1", tool_args := JVal.obj [], reasoning := "why1" },
           { tool_name := "t2", tool_args := JVal.obj [], reasoning := "why2" }]))
        (fun i => if i = 0 then ([] : Store)
          else [("u", { websocket := 0, user_id := "u",
                        available_tools := JVal.arr [],
                        session_initialized := true })])
        (fun _ => Except.ok (JVal.obj [("content", JVal.arr [JVal.str "ok2"])]))
        (fun _ => Except.ok (LLMResp.text "final"))
      = (Except.ok
          { response := "final",
            tools_used := some ["t1", "t2"],
            tool_results := some
              [{ tool_name := "t1",
                 result := JVal.str ("Error: " ++ excStr Exc.connectionNotFound),
                 reasoning := "why1" },
               { tool_name := "t2",
                 result := jget (JVal.obj [("content", JVal.arr [JVal.str "ok2"])])
                   "content" (JVal.arr []),
                 reasoning := "why2" }],
            tool_count := some 2 }, 1) :=
  ⟨rfl, rfl, rfl,
    C10_fresh_lookup_not_found_captured
      [("u", { websocket := 0, user_id := "u", available_tools := JVal.arr [],
               session_initialized := true })] "u"
      { websocket := 0, user_id := "u", available_tools := JVal.arr [],
        session_initialized := true }
      { websocket := 0, user_id := "u", available_tools := JVal.arr [],
        session_initialized := true }
      { tool_name := "t1", tool_args := JVal.obj [], reasoning := "why1" }
      { tool_name := "t2", tool_args := JVal.obj [], reasoning := "why2" }
      (JVal.obj [("content", JVal.arr [JVal.str "ok2"])]) "final"
      (fun i => if i = 0 then ([] : Store)
        else [("u", { websocket := 0, user_id := "u",
                      available_tools := JVal.arr [],
                      session_initialized := true })])
      (fun _ => Except.ok (JVal.obj [("content", JVal.arr [JVal.str "ok2"])]))
      (fun _ => Except.ok (LLMResp.text "final"))
      rfl rfl rfl rfl rfl rfl⟩
